import Mathlib

/-!
Verification of the oxidoc presentation layer (src/markup.rs, src/main.rs):
the documentation data model, the directive-based markup intermediate
representation, the per-kind formatter, the terminal renderer, and the
query-paging driver.  External crates (ansi_term, catmark, term_size) and
the external Store/Driver are modelled as parameters of the rendering
environment and of the driver function.
-/

namespace Oxidoc

/-- The markup directive type (`Markup` in src/markup.rs). -/
inductive Markup where
  | Header (text : String)
  | Section (text : String)
  | Block (text : String)
  | Markdown (text : String)
  | Rule (count : Nat)
  | LineBreak
deriving DecidableEq, Repr

/-- A formatted piece of documentation made up of individual markup pieces
(`MarkupDoc` in src/markup.rs). -/
structure MarkupDoc where
  parts : List Markup
deriving DecidableEq, Repr

/-- Modelled from the spec: `document::ModPath` is not under src/.  The spec
describes the qualified path as ordered module/type path segments displayed
joined by `::` (scenario A: ["mycrate","Foo","bar"] displays as
`mycrate::Foo::bar`). -/
structure ModPath where
  segments : List String
deriving DecidableEq, Repr

/-- Display of a qualified path: segments joined with `::`. -/
def ModPath.toString (p : ModPath) : String :=
  String.intercalate "::" p.segments

/-- Modelled from the spec: `ModPath::parent` is not under src/.  Parent path
is the qualified path with its last segment removed; a path of at most one
segment has no parent (the spec's precondition "at least two segments, so a
parent exists"). -/
def ModPath.parent (p : ModPath) : Option ModPath :=
  if p.segments.length ≤ 1 then none else some ⟨p.segments.dropLast⟩

/-- Modelled from the spec: `FnKind` (generation::ast_ty_wrappers) is not
under src/.  The spec lists origin kinds FreeFunction, MethodFromImpl,
MethodFromTrait; src/markup.rs only distinguishes MethodFromImpl from the
rest. -/
inductive FnKind where
  | FreeFunction
  | MethodFromImpl
  | MethodFromTrait
deriving DecidableEq, Repr

/-- Method signature carrier; only its `header` string is consumed by
src/markup.rs. -/
structure MethodSig where
  header : String
deriving DecidableEq, Repr

/-- Function payload: one-line signature header text and origin kind. -/
structure Function where
  header : String
  kind : FnKind
deriving DecidableEq, Repr

/-- A named type; only its `name` string is consumed by src/markup.rs. -/
structure Ty where
  name : String
deriving DecidableEq, Repr

/-- Constant payload: its type and its expression text. -/
structure Constant where
  ty : Ty
  expr : String
deriving DecidableEq, Repr

/-- Trait-item kinds (the source names the third and fourth constructors
`Type` and `Macro`, which Lean reserves). -/
inductive TraitItemKind where
  | Const (ty : Ty) (expr : Option String)
  | Method (sig : MethodSig)
  | TypeItem (ty : Option Ty)
  | MacroItem (mac : String)
deriving DecidableEq, Repr

/-- Trait item payload. -/
structure TraitItem where
  node : TraitItemKind
deriving DecidableEq, Repr

/-- Module payload: whether this module is the crate root. -/
structure Module where
  is_crate : Bool
deriving DecidableEq, Repr

/-- The inner-data classification of a documentation entry
(`DocInnerData`); payloads unused by src/markup.rs are omitted. -/
inductive DocInnerData where
  | FnDoc (func : Function)
  | StructDoc
  | ConstDoc (konst : Constant)
  | EnumDoc
  | TraitDoc
  | TraitItemDoc (item : TraitItem)
  | ModuleDoc (module : Module)
deriving DecidableEq, Repr

/-- Doc-comment attributes: the ordered doc-comment lines. -/
structure Attributes where
  doc_strings : List String
deriving DecidableEq, Repr

/-- A documentation entry (`Documentation`), with the fields consumed by
src/markup.rs: display name, qualified path, crate info label, optional
visibility string, doc-comment attributes, and inner data. -/
structure Documentation where
  name : String
  mod_path : ModPath
  crate_info : String
  visibility : Option String
  attrs : Attributes
  inner_data : DocInnerData
deriving DecidableEq, Repr

/-! ## Renderer (fmt::Display impls in src/markup.rs)

The rendering environment carries the external capabilities: the result of
`term_size::dimensions()`, the `catmark::render_ansi` markdown converter,
and the `ansi_term` bold-style painter. -/

/-- External rendering capabilities. -/
structure RenderEnv where
  dims : Option (Nat × Nat)
  mdRender : String → Nat → String
  bold : String → String

/-- `get_term_width`: the queried terminal width, truncated to u16 as in the
source (`w as u16`), falling back to 80 when no dimensions are available. -/
def get_term_width (env : RenderEnv) : Nat :=
  match env.dims with
  | some (w, _) => w % 65536
  | none => 80

/-- Rendering of one markup directive (`fmt::Display for Markup`). -/
def Markup.render (env : RenderEnv) : Markup → String
  | .Header text => env.bold ("==== " ++ text)
  | .Section text => env.bold ("== " ++ text)
  | .Block text => text
  | .Markdown md => env.mdRender md (get_term_width env)
  | .Rule count => String.mk (List.replicate count '-')
  | .LineBreak => ""

/-- Rendering of a whole document (`fmt::Display for MarkupDoc`): each part
in order, each followed by a newline. -/
def MarkupDoc.render (env : RenderEnv) (doc : MarkupDoc) : String :=
  doc.parts.foldl (fun acc part => acc ++ Markup.render env part ++ "\n") ""

/-! ## Formatter (Format impls and doc_* helpers in src/markup.rs) -/

/-- `impl Format for Attributes`: join the doc-comment lines with newline
into one Markdown directive. -/
def Attributes.format (a : Attributes) : MarkupDoc :=
  ⟨[Markup.Markdown (String.intercalate "\n" a.doc_strings)]⟩

/-- `doc_header`: crate-info block then kind/path header. -/
def doc_header (data : Documentation) : MarkupDoc :=
  let name :=
    match data.inner_data with
    | .FnDoc _ => "Function"
    | .StructDoc => "Struct"
    | .ConstDoc _ => "Constant"
    | .EnumDoc => "Enum"
    | .TraitDoc => "Trait"
    | .TraitItemDoc _ => "Trait Item"
    | .ModuleDoc module => if module.is_crate then "Crate" else "Module"
  ⟨[Markup.Block ("(" ++ data.crate_info ++ ")"),
    Markup.Header (name ++ " " ++ data.mod_path.toString)]⟩

/-- `doc_body`: the attributes, formatted. -/
def doc_body (data : Documentation) : MarkupDoc :=
  data.attrs.format

/-- `doc_related_items`: currently always the empty document. -/
def doc_related_items (_data : Documentation) : MarkupDoc :=
  ⟨[]⟩

/-- `doc_inner_info`: contextual annotation.  The source calls
`mod_path.parent().unwrap()` in the impl-method and trait-item branches;
`none` models the panic when no parent exists. -/
def doc_inner_info (data : Documentation) : Option MarkupDoc :=
  match data.inner_data with
  | .FnDoc func =>
    match func.kind with
    | .MethodFromImpl =>
      (data.mod_path.parent).map
        (fun p => ⟨[Markup.Header ("Impl on type " ++ p.toString)]⟩)
    | _ => some ⟨[Markup.LineBreak]⟩
  | .TraitItemDoc _ =>
    (data.mod_path.parent).map
      (fun p => ⟨[Markup.Header ("From trait " ++ p.toString)]⟩)
  | _ => some ⟨[Markup.LineBreak]⟩

/-- `doc_module` signature line. -/
def doc_module (data : Documentation) : String :=
  "mod " ++ data.mod_path.toString

/-- `doc_fn` signature line. -/
def doc_fn (data : Documentation) (func : Function) : String :=
  "fn " ++ data.name ++ " " ++ func.header

/-- `doc_enum` signature line. -/
def doc_enum (data : Documentation) : String :=
  "enum " ++ data.name

/-- `doc_struct` signature line. -/
def doc_struct (data : Documentation) : String :=
  "struct " ++ data.name ++ " \x7b /* fields omitted */ \x7d"

/-- `doc_const` signature line. -/
def doc_const (data : Documentation) (konst : Constant) : String :=
  "const " ++ data.name ++ ": " ++ konst.ty.name ++ " = " ++ konst.expr

/-- `doc_trait` signature line. -/
def doc_trait (data : Documentation) : String :=
  "trait " ++ data.name ++ " \x7b /* fields omitted */ \x7d"

/-- `doc_trait_item` signature line, dispatching on the trait-item kind. -/
def doc_trait_item (data : Documentation) (item : TraitItem) : String :=
  match item.node with
  | .Const ty expr =>
    let expr_string := match expr with | some e => e | none => ""
    "const " ++ data.name ++ ": " ++ ty.name ++ " = " ++ expr_string
  | .Method sig => "fn " ++ data.name ++ " " ++ sig.header
  | .TypeItem ty =>
    let ty_string := match ty with | some t => t.name | none => ""
    "type " ++ ty_string
  | .MacroItem mac => "macro " ++ data.name ++ " " ++ mac

/-- `doc_signature`: the crate root short-circuits to a bare rule; every
other entry gets the fixed frame around its one-line signature. -/
def doc_signature (data : Documentation) : MarkupDoc :=
  let vis_string := match data.visibility with | some v => v | none => ""
  let frame := fun (header : String) =>
    MarkupDoc.mk
      [Markup.Rule 10, Markup.LineBreak,
       Markup.Block ("  " ++ vis_string ++ " " ++ header), Markup.LineBreak,
       Markup.Rule 10, Markup.LineBreak]
  match data.inner_data with
  | .ModuleDoc module =>
    if module.is_crate then ⟨[Markup.Rule 10, Markup.LineBreak]⟩
    else frame (doc_module data)
  | .FnDoc func => frame (doc_fn data func)
  | .EnumDoc => frame (doc_enum data)
  | .StructDoc => frame (doc_struct data)
  | .ConstDoc konst => frame (doc_const data konst)
  | .TraitDoc => frame (doc_trait data)
  | .TraitItemDoc item => frame (doc_trait_item data item)

/-- `impl Format for Documentation`: concatenation of the five phases in
fixed order; `none` models the panic propagated from `doc_inner_info`. -/
def Documentation.format (data : Documentation) : Option MarkupDoc :=
  (doc_inner_info data).map (fun info =>
    ⟨(doc_header data).parts ++ info.parts ++ (doc_signature data).parts ++
     (doc_body data).parts ++ (doc_related_items data).parts⟩)

/-! ## Driver (page_search_query in src/main.rs)

The external Store lookup is modelled by the candidate list it returns and
`Driver::get_doc` by a function into `Option Documentation`; `none` models
the `.unwrap()` panic on a resolution failure. -/

/-- Opaque handle into the external index (`StoreLocation`). -/
structure StoreLocation where
  id : Nat
deriving DecidableEq, Repr

/-- Observable outcome of one query: the lines printed (arguments of each
`println!`), and whether the pager was set up. -/
structure PageOutcome where
  printed : List String
  pagerAcquired : Bool
deriving DecidableEq, Repr

/-- Resolution and rendering of one candidate, as the closure inside
`page_search_query` does: `Driver::get_doc(..).unwrap()` then
`result.format().to_string()`. -/
def resolveOne (getDoc : StoreLocation → Option Documentation)
    (env : RenderEnv) (loc : StoreLocation) : Option String :=
  (getDoc loc).bind (fun result =>
    (result.format).map (fun doc => doc.render env))

/-- The `.map(..).collect()` loop: resolve every candidate in order; a
single failing resolution aborts the whole query (models the unwrap
panic). -/
def resolveAll (f : StoreLocation → Option String) :
    List StoreLocation → Option (List String)
  | [] => some []
  | loc :: rest =>
    match f loc, resolveAll f rest with
    | some s, some ss => some (s :: ss)
    | _, _ => none

/-- `page_search_query`: truncate the Store candidates to at most 10; if
none, print the no-results line and finish without the pager; otherwise
resolve/format/render each, set up the pager, and print each rendered
entry. -/
def page_search_query (query : String) (lookup : List StoreLocation)
    (getDoc : StoreLocation → Option Documentation) (env : RenderEnv) :
    Option PageOutcome :=
  let results := lookup.take 10
  if results.isEmpty then
    some ⟨["No results for \"" ++ query ++ "\"."], false⟩
  else
    match resolveAll (resolveOne getDoc env) results with
    | none => none
    | some formatted => some ⟨formatted, true⟩

/-! ## Spec-side definitions

These follow the spec's words, for comparison with the source-side
definitions above. -/

/-- Spec-side kind label: Function→"Function", Struct→"Struct",
Const→"Constant", Enum→"Enum", Trait→"Trait", TraitItem→"Trait Item",
Module→"Crate" when crate root else "Module". -/
def specKindLabel (data : Documentation) : String :=
  match data.inner_data with
  | .FnDoc _ => "Function"
  | .StructDoc => "Struct"
  | .ConstDoc _ => "Constant"
  | .EnumDoc => "Enum"
  | .TraitDoc => "Trait"
  | .TraitItemDoc _ => "Trait Item"
  | .ModuleDoc module => if module.is_crate then "Crate" else "Module"

/-- Spec-side test for the crate-root-module short-circuit. -/
def specIsCrateRoot (data : Documentation) : Bool :=
  match data.inner_data with
  | .ModuleDoc module => module.is_crate
  | _ => false

/-- Spec-side visibility string: the visibility when present, empty when
absent. -/
def specVisString (data : Documentation) : String :=
  match data.visibility with | some v => v | none => ""

/-- Spec-side one-line signature mapping: Module→"mod <path>",
Function→"fn <name> <signature_text>", Enum→"enum <name>",
Struct→"struct <name> \x7b /* fields omitted */ \x7d",
Const→"const <name>: <type_name> = <expr_text>",
Trait→"trait <name> \x7b /* fields omitted */ \x7d", and TraitItem
sub-dispatch on Const/Method/Type/Macro kinds. -/
def specSignatureLine (data : Documentation) : String :=
  match data.inner_data with
  | .ModuleDoc _ => "mod " ++ data.mod_path.toString
  | .FnDoc func => "fn " ++ data.name ++ " " ++ func.header
  | .EnumDoc => "enum " ++ data.name
  | .StructDoc => "struct " ++ data.name ++ " \x7b /* fields omitted */ \x7d"
  | .ConstDoc konst =>
    "const " ++ data.name ++ ": " ++ konst.ty.name ++ " = " ++ konst.expr
  | .TraitDoc => "trait " ++ data.name ++ " \x7b /* fields omitted */ \x7d"
  | .TraitItemDoc item =>
    match item.node with
    | .Const ty expr =>
      "const " ++ data.name ++ ": " ++ ty.name ++ " = " ++
        (match expr with | some e => e | none => "")
    | .Method sig => "fn " ++ data.name ++ " " ++ sig.header
    | .TypeItem ty =>
      "type " ++ (match ty with | some t => t.name | none => "")
    | .MacroItem mac => "macro " ++ data.name ++ " " ++ mac

/-- Spec-side newline join of doc-comment lines, written as plain
recursion. -/
def specJoinLines : List String → String
  | [] => ""
  | [s] => s
  | s :: rest => s ++ "\n" ++ specJoinLines rest

/-- Spec-side rendering of one directive, per the renderer table of the
spec: Header t → bold "==== t", Section t → bold "== t", Block t → t
verbatim, Markdown t → markdown converter at the current width, Rule n →
n dashes, LineBreak → empty line. -/
def specDirective (env : RenderEnv) : Markup → String
  | .Header t => env.bold ("==== " ++ t)
  | .Section t => env.bold ("== " ++ t)
  | .Block t => t
  | .Markdown t => env.mdRender t (get_term_width env)
  | .Rule n => String.mk (List.replicate n '-')
  | .LineBreak => ""

/-- Spec-side rendering of a document: each directive in order, each
terminated with a line break, the final one included. -/
def specRender (env : RenderEnv) (doc : MarkupDoc) : String :=
  (doc.parts.map (fun part => specDirective env part ++ "\n")).foldr
    (fun a b => a ++ b) ""

/-- Whether the inner-info phase takes a branch that needs a parent path
(Function with MethodFromImpl origin, or TraitItem). -/
def needsParent (data : Documentation) : Bool :=
  match data.inner_data with
  | .FnDoc func =>
    match func.kind with
    | .MethodFromImpl => true
    | _ => false
  | .TraitItemDoc _ => true
  | _ => false

/-! ## Concrete inputs used by witnesses and counterexamples -/

/-- A struct entry. -/
def exStruct : Documentation :=
  { name := "Foo", mod_path := ⟨["mycrate", "Foo"]⟩,
    crate_info := "mycrate 0.1.0", visibility := some "pub",
    attrs := ⟨["A struct."]⟩, inner_data := DocInnerData.StructDoc }

/-- The formatted document of the struct entry. -/
def exStructDoc : MarkupDoc :=
  (exStruct.format).getD ⟨[]⟩

/-- The inner-info phase of the struct entry. -/
def exStructInfo : MarkupDoc :=
  (doc_inner_info exStruct).getD ⟨[]⟩

/-- An impl-method function entry (spec scenario A). -/
def exImplFn : Documentation :=
  { name := "bar", mod_path := ⟨["mycrate", "Foo", "bar"]⟩,
    crate_info := "mycrate 0.1.0", visibility := some "pub",
    attrs := ⟨["Does bar."]⟩,
    inner_data :=
      DocInnerData.FnDoc ⟨"(x: i32) -> i32", FnKind.MethodFromImpl⟩ }

/-- A trait-item entry. -/
def exTraitItem : Documentation :=
  { name := "item", mod_path := ⟨["mycrate", "Tr", "item"]⟩,
    crate_info := "mycrate 0.1.0", visibility := none,
    attrs := ⟨["A trait item.", "Second line."]⟩,
    inner_data :=
      DocInnerData.TraitItemDoc ⟨TraitItemKind.TypeItem (some ⟨"T"⟩)⟩ }

/-- The formatted document of the trait-item entry. -/
def exTraitItemDoc : MarkupDoc :=
  (exTraitItem.format).getD ⟨[]⟩

/-- The inner-info phase of the trait-item entry. -/
def exTraitItemInfo : MarkupDoc :=
  (doc_inner_info exTraitItem).getD ⟨[]⟩

/-- An enum entry. -/
def exEnum : Documentation :=
  { name := "E", mod_path := ⟨["mycrate", "E"]⟩,
    crate_info := "mycrate 0.1.0", visibility := some "pub",
    attrs := ⟨[]⟩, inner_data := DocInnerData.EnumDoc }

/-- A concrete rendering environment with undeterminable terminal width. -/
def exEnv : RenderEnv :=
  { dims := none,
    mdRender := fun md width => md ++ "@" ++ Nat.repr width,
    bold := fun s => "<b>" ++ s ++ "</b>" }

/-- A small concrete document. -/
def exDoc : MarkupDoc :=
  ⟨[Markup.Header "H", Markup.Section "S", Markup.Block "B",
    Markup.Markdown "M", Markup.Rule 3, Markup.LineBreak]⟩

/-- Eleven store candidates, in order. -/
def exLocs : List StoreLocation :=
  [⟨0⟩, ⟨1⟩, ⟨2⟩, ⟨3⟩, ⟨4⟩, ⟨5⟩, ⟨6⟩, ⟨7⟩, ⟨8⟩, ⟨9⟩, ⟨10⟩]

/-- A resolver that materializes a simple struct entry for every
candidate. -/
def exGetDoc (loc : StoreLocation) : Option Documentation :=
  some { name := "S" ++ Nat.repr loc.id, mod_path := ⟨["c", "S"]⟩,
         crate_info := "c 1.0", visibility := some "pub",
         attrs := ⟨["doc"]⟩, inner_data := DocInnerData.StructDoc }

/-- The rendered strings of the first ten candidates. -/
def exRendered : List String :=
  (resolveAll (resolveOne exGetDoc exEnv) (exLocs.take 10)).getD []

/-! ## Helper lemmas -/

/-- The tail-recursive interleaving loop of String.intercalate unfolds to a
right fold. -/
theorem intercalate_go_eq (sep : String) :
    ∀ (l : List String) (acc : String),
      String.intercalate.go acc sep l =
        acc ++ (l.foldr (fun a b => sep ++ a ++ b) "") := by
  intro l
  induction l with
  | nil => intro acc; simp [String.intercalate.go]
  | cons a as ih =>
    intro acc
    simp only [String.intercalate.go, ih, List.foldr]
    rw [← String.append_assoc, ← String.append_assoc]

/-- The spec-side join on a nonempty list is the head followed by the
separator-prefixed fold of the tail. -/
theorem specJoinLines_cons : ∀ (as : List String) (a : String),
    specJoinLines (a :: as) =
      a ++ (as.foldr (fun x b => "\n" ++ x ++ b) "") := by
  intro as
  induction as with
  | nil => intro a; simp [specJoinLines]
  | cons b bs ih =>
    intro a
    show a ++ "\n" ++ specJoinLines (b :: bs) = _
    rw [ih b]
    simp only [List.foldr]
    rw [String.append_assoc, String.append_assoc]

/-- String.intercalate with newline agrees with the spec-side join. -/
theorem intercalate_eq_specJoinLines : ∀ l : List String,
    String.intercalate "\n" l = specJoinLines l := by
  intro l
  cases l with
  | nil => rfl
  | cons a as => rw [String.intercalate, intercalate_go_eq, specJoinLines_cons]

/-- The renderer's left fold over the parts, for any accumulator, is the
accumulator followed by the right-fold concatenation of the newline-
terminated part renderings. -/
theorem render_foldl_eq (env : RenderEnv) :
    ∀ (l : List Markup) (acc : String),
      l.foldl (fun a part => a ++ Markup.render env part ++ "\n") acc =
        acc ++ (l.map (fun part => Markup.render env part ++ "\n")).foldr
          (fun a b => a ++ b) "" := by
  intro l
  induction l with
  | nil => intro acc; simp
  | cons x xs ih =>
    intro acc
    simp only [List.foldl, List.map, List.foldr, ih]
    rw [← String.append_assoc, ← String.append_assoc]

/-- Rendering a document is the concatenation of its newline-terminated
part renderings. -/
theorem render_eq_mapfold (env : RenderEnv) (doc : MarkupDoc) :
    MarkupDoc.render env doc =
      (doc.parts.map (fun part => Markup.render env part ++ "\n")).foldr
        (fun a b => a ++ b) "" := by
  rw [MarkupDoc.render, render_foldl_eq, String.empty_append]

/-- The source renderer of one directive agrees with the spec-side
directive table. -/
theorem markup_render_eq_specDirective (env : RenderEnv) (part : Markup) :
    Markup.render env part = specDirective env part := by
  cases part <;> rfl

/-- Rendering one directive depends only on the effective width and the
external converters. -/
theorem markup_render_congr (env env2 : RenderEnv) (part : Markup)
    (hw : get_term_width env = get_term_width env2)
    (hmd : env.mdRender = env2.mdRender) (hb : env.bold = env2.bold) :
    Markup.render env part = Markup.render env2 part := by
  cases part <;> simp [Markup.render, hw, hmd, hb]

/-- The header phase is the crate-info block then the kind/path header,
with the kind given by the spec-side label. -/
theorem doc_header_eq (data : Documentation) :
    doc_header data =
      ⟨[Markup.Block ("(" ++ data.crate_info ++ ")"),
        Markup.Header (specKindLabel data ++ " " ++
          data.mod_path.toString)]⟩ := by
  cases hd : data.inner_data <;> simp [doc_header, specKindLabel, hd]

/-- The inner-info phase, whenever defined, is a single directive. -/
theorem doc_inner_info_length (data : Documentation) (info : MarkupDoc) :
    doc_inner_info data = some info → info.parts.length = 1 := by
  intro h
  cases hd : data.inner_data <;> simp [doc_inner_info, hd] at h
  case FnDoc func =>
    cases hk : func.kind <;> simp [hk] at h
    case MethodFromImpl =>
      obtain ⟨p, -, hp⟩ := h
      simp [← hp]
    all_goals simp [← h]
  case TraitItemDoc item =>
    obtain ⟨p, -, hp⟩ := h
    simp [← hp]
  all_goals simp [← h]

/-- The inner-info phase is defined whenever the branches that need a
parent have one (at least two path segments). -/
theorem doc_inner_info_isSome (data : Documentation)
    (h : needsParent data = true → 2 ≤ data.mod_path.segments.length) :
    (doc_inner_info data).isSome = true := by
  cases hd : data.inner_data <;> simp [doc_inner_info, hd]
  case FnDoc func =>
    cases hk : func.kind <;> simp
    case MethodFromImpl =>
      have h2 : 2 ≤ data.mod_path.segments.length := by
        apply h; simp [needsParent, hd, hk]
      simp [ModPath.parent]
      omega
  case TraitItemDoc item =>
    have h2 : 2 ≤ data.mod_path.segments.length := by
      apply h; simp [needsParent, hd]
    simp [ModPath.parent]
    omega

/-- The signature phase is never empty. -/
theorem doc_signature_length (data : Documentation) :
    1 ≤ (doc_signature data).parts.length := by
  cases hd : data.inner_data <;> simp [doc_signature, hd]
  case ModuleDoc module => cases module.is_crate <;> simp

/-- A successful resolution loop preserves the number of candidates. -/
theorem resolveAll_length (f : StoreLocation → Option String) :
    ∀ (l : List StoreLocation) (r : List String),
      resolveAll f l = some r → r.length = l.length := by
  intro l
  induction l with
  | nil => intro r h; simp [resolveAll] at h; simp [← h]
  | cons loc rest ih =>
    intro r h
    simp only [resolveAll] at h
    cases hf : f loc with
    | none => rw [hf] at h; simp at h
    | some s =>
      rw [hf] at h
      cases hr : resolveAll f rest with
      | none => rw [hr] at h; simp at h
      | some ss =>
        rw [hr] at h
        simp at h
        simp [← h, ih ss hr]

/-! ## Claims -/

/-- C1: for every DocumentationEntry, regardless of its InnerData variant,
format(entry) begins with the directive Block("(<crate_info>)") followed by
Header("<Kind> <qualified_path>"), where Kind is the total variant-to-label
mapping (Function→"Function", Struct→"Struct", Const→"Constant",
Enum→"Enum", Trait→"Trait", TraitItem→"Trait Item", Module→"Crate" when
crate root else "Module"). -/
theorem format_begins_with_header_phase (data : Documentation)
    (doc : MarkupDoc) (h : data.format = some doc) :
    doc.parts.take 2 =
      [Markup.Block ("(" ++ data.crate_info ++ ")"),
       Markup.Header (specKindLabel data ++ " " ++
         data.mod_path.toString)] := by
  rw [Documentation.format, Option.map_eq_some'] at h
  obtain ⟨info, -, hdoc⟩ := h
  rw [← hdoc]
  rw [doc_header_eq]
  simp

/-- C1 witness: at a concrete struct entry. -/
theorem format_begins_with_header_phase_witness :
    exStruct.format = some exStructDoc ∧
    exStructDoc.parts.take 2 =
      [Markup.Block "(mycrate 0.1.0)", Markup.Header "Struct mycrate::Foo"] :=
  ⟨rfl, format_begins_with_header_phase exStruct exStructDoc rfl⟩

/-- C2: the signature phase is exactly [Rule 10, LineBreak] for the crate
root, and otherwise exactly the fixed frame Rule 10, LineBreak,
Block("  <visibility> <signature>"), LineBreak, Rule 10, LineBreak around
the per-variant one-line signature string. -/
theorem doc_signature_spec (data : Documentation) :
    doc_signature data =
      if specIsCrateRoot data then ⟨[Markup.Rule 10, Markup.LineBreak]⟩
      else
        ⟨[Markup.Rule 10, Markup.LineBreak,
          Markup.Block ("  " ++ specVisString data ++ " " ++
            specSignatureLine data), Markup.LineBreak,
          Markup.Rule 10, Markup.LineBreak]⟩ := by
  cases hd : data.inner_data <;>
    simp [doc_signature, specIsCrateRoot, specSignatureLine, specVisString,
      doc_module, doc_fn, doc_enum, doc_struct, doc_const, doc_trait,
      doc_trait_item, hd]

/-- C3: the inner-info phase is Header("Impl on type <parent>") for an
impl-origin method, Header("From trait <parent>") for a trait item, and a
single LineBreak for every other entry, the parent being the qualified
path with its last segment removed. -/
theorem doc_inner_info_spec (data : Documentation) :
    (∀ p func, data.mod_path.parent = some p →
      data.inner_data = DocInnerData.FnDoc func →
      func.kind = FnKind.MethodFromImpl →
      doc_inner_info data =
        some ⟨[Markup.Header ("Impl on type " ++ p.toString)]⟩) ∧
    (∀ p item, data.mod_path.parent = some p →
      data.inner_data = DocInnerData.TraitItemDoc item →
      doc_inner_info data =
        some ⟨[Markup.Header ("From trait " ++ p.toString)]⟩) ∧
    (needsParent data = false →
      doc_inner_info data = some ⟨[Markup.LineBreak]⟩) := by
  refine ⟨?_, ?_, ?_⟩
  · intro p func hp hd hk
    simp [doc_inner_info, hd, hk, hp]
  · intro p item hp hd
    simp [doc_inner_info, hd, hp]
  · intro hnp
    cases hd : data.inner_data <;> simp [doc_inner_info, hd]
    case FnDoc func =>
      cases hk : func.kind <;> simp
      case MethodFromImpl => simp [needsParent, hd, hk] at hnp
    case TraitItemDoc item => simp [needsParent, hd] at hnp

/-- C3 witness: the three branches at concrete entries. -/
theorem doc_inner_info_spec_witness :
    doc_inner_info exImplFn =
      some ⟨[Markup.Header "Impl on type mycrate::Foo"]⟩ ∧
    doc_inner_info exTraitItem =
      some ⟨[Markup.Header "From trait mycrate::Tr"]⟩ ∧
    doc_inner_info exEnum = some ⟨[Markup.LineBreak]⟩ :=
  ⟨(doc_inner_info_spec exImplFn).1 ⟨["mycrate", "Foo"]⟩
      ⟨"(x: i32) -> i32", FnKind.MethodFromImpl⟩ (by decide) rfl rfl,
   (doc_inner_info_spec exTraitItem).2.1 ⟨["mycrate", "Tr"]⟩
      ⟨TraitItemKind.TypeItem (some ⟨"T"⟩)⟩ (by decide) rfl,
   (doc_inner_info_spec exEnum).2.2 (by decide)⟩

/-- C4: under the precondition that an entry needing a parent path has at
least two path segments, format is total and returns a document with at
least two directives. -/
theorem format_total (data : Documentation)
    (h : needsParent data = true → 2 ≤ data.mod_path.segments.length) :
    (data.format).isSome = true ∧
      2 ≤ ((data.format).getD ⟨[]⟩).parts.length := by
  have hinfo := doc_inner_info_isSome data h
  rw [Option.isSome_iff_exists] at hinfo
  obtain ⟨info, hinfo⟩ := hinfo
  constructor
  · simp [Documentation.format, hinfo]
  · simp only [Documentation.format, hinfo, Option.map_some', Option.getD_some]
    rw [doc_header_eq]
    simp

/-- C4 witness: at a concrete trait-item entry, which takes the
parent-requiring branch. -/
theorem format_total_witness :
    (needsParent exTraitItem = true →
      2 ≤ exTraitItem.mod_path.segments.length) ∧
    ((exTraitItem.format).isSome = true ∧
      2 ≤ ((exTraitItem.format).getD ⟨[]⟩).parts.length) :=
  ⟨by decide, format_total exTraitItem (by decide)⟩

/-- C5 counterexample: at a concrete struct entry, format succeeds yet the
related-items phase contributes zero directives, refuting "every phase
contributes at least one directive, never zero". -/
theorem related_items_empty_counterexample :
    (exStruct.format).isSome = true ∧
      ¬(1 ≤ (doc_related_items exStruct).parts.length) := by
  constructor
  · rfl
  · decide

/-- C5 amended: format is the concatenation of the five phase
sub-sequences in the fixed order header, inner-info, signature, body,
related-items; the first four phases each contribute at least one
directive, while the related-items phase currently contributes zero
directives. -/
theorem format_phase_concat (data : Documentation) (info doc : MarkupDoc)
    (hinfo : doc_inner_info data = some info)
    (hdoc : data.format = some doc) :
    doc.parts = (doc_header data).parts ++ info.parts ++
        (doc_signature data).parts ++ (doc_body data).parts ++
        (doc_related_items data).parts ∧
      1 ≤ (doc_header data).parts.length ∧
      1 ≤ info.parts.length ∧
      1 ≤ (doc_signature data).parts.length ∧
      1 ≤ (doc_body data).parts.length ∧
      (doc_related_items data).parts.length = 0 := by
  rw [Documentation.format, hinfo, Option.map_some'] at hdoc
  injection hdoc with hdoc
  refine ⟨?_, ?_, ?_, doc_signature_length data, ?_, rfl⟩
  · rw [← hdoc]
  · rw [doc_header_eq]; simp
  · rw [doc_inner_info_length data info hinfo]
  · simp [doc_body, Attributes.format]

/-- C5 amended witness: at the concrete struct entry. -/
theorem format_phase_concat_witness :
    exStructDoc.parts = (doc_header exStruct).parts ++
        exStructInfo.parts ++ (doc_signature exStruct).parts ++
        (doc_body exStruct).parts ++ (doc_related_items exStruct).parts ∧
      1 ≤ (doc_header exStruct).parts.length ∧
      1 ≤ exStructInfo.parts.length ∧
      1 ≤ (doc_signature exStruct).parts.length ∧
      1 ≤ (doc_body exStruct).parts.length ∧
      (doc_related_items exStruct).parts.length = 0 :=
  format_phase_concat exStruct exStructInfo exStructDoc rfl rfl

/-- C6: the body phase is exactly one Markdown directive whose raw text is
the newline-join of the entry's doc-comment lines, in their original
order. -/
theorem doc_body_spec (data : Documentation) :
    doc_body data =
      ⟨[Markup.Markdown (specJoinLines data.attrs.doc_strings)]⟩ := by
  simp [doc_body, Attributes.format, intercalate_eq_specJoinLines]

/-- C7: the renderer emits the directives in order, terminates every
directive's output with a line break (the final one included), and maps
each directive per the spec table (bold "==== " header, bold "== "
section, verbatim block, width-converted markdown, n dashes, empty
line). -/
theorem render_spec (env : RenderEnv) (doc : MarkupDoc) :
    MarkupDoc.render env doc = specRender env doc := by
  rw [render_eq_mapfold, specRender]
  simp only [markup_render_eq_specDirective]

/-- C8: when the width query returns no dimensions the renderer falls back
to exactly 80 columns for Markdown directives, and rendering is
deterministic: the output depends only on the document, the effective
width and the external converters. -/
theorem width_fallback_det (env env2 : RenderEnv) (md : String)
    (doc : MarkupDoc) :
    (env.dims = none →
      get_term_width env = 80 ∧
      Markup.render env (Markup.Markdown md) = env.mdRender md 80) ∧
    (get_term_width env = get_term_width env2 →
      env.mdRender = env2.mdRender → env.bold = env2.bold →
      MarkupDoc.render env doc = MarkupDoc.render env2 doc) := by
  constructor
  · intro h
    constructor
    · simp [get_term_width, h]
    · simp [Markup.render, get_term_width, h]
  · intro hw hmd hb
    have hfun : (fun part => Markup.render env part ++ "\n") =
        (fun part => Markup.render env2 part ++ "\n") := by
      funext part
      rw [markup_render_congr env env2 part hw hmd hb]
    rw [render_eq_mapfold, render_eq_mapfold, hfun]

/-- C8 witness: at a concrete environment with no dimensions and a
concrete document. -/
theorem width_fallback_det_witness :
    (get_term_width exEnv = 80 ∧
      Markup.render exEnv (Markup.Markdown "hello") =
        exEnv.mdRender "hello" 80) ∧
    MarkupDoc.render exEnv exDoc = MarkupDoc.render exEnv exDoc :=
  ⟨(width_fallback_det exEnv exEnv "hello" exDoc).1 rfl,
   (width_fallback_det exEnv exEnv "hello" exDoc).2 rfl rfl rfl⟩

/-- C9: on a query with zero candidates, the driver prints exactly the
no-results line, terminates successfully, and never acquires the pager. -/
theorem no_results_line (query : String)
    (getDoc : StoreLocation → Option Documentation) (env : RenderEnv) :
    page_search_query query [] getDoc env =
      some ⟨["No results for \"" ++ query ++ "\"."], false⟩ := rfl

/-- C10: with a nonempty candidate list, exactly the first min(n, 10)
candidates are resolved, formatted and rendered, in Store order, and the
pager is acquired; the printed sequence is exactly the resolution of the
first ten candidates. -/
theorem first_ten_in_order (query : String) (locs : List StoreLocation)
    (getDoc : StoreLocation → Option Documentation) (env : RenderEnv)
    (rendered : List String) (hne : locs ≠ [])
    (hres : resolveAll (resolveOne getDoc env) (locs.take 10) =
      some rendered) :
    page_search_query query locs getDoc env = some ⟨rendered, true⟩ ∧
      rendered.length = min 10 locs.length := by
  constructor
  · have htake : (locs.take 10).isEmpty = false := by
      cases locs with
      | nil => exact absurd rfl hne
      | cons a t => simp [List.take]
    simp [page_search_query, htake, hres]
  · rw [resolveAll_length _ _ _ hres, List.length_take]

/-- C10 witness: eleven candidates; exactly the first ten are rendered, in
order. -/
theorem first_ten_in_order_witness :
    (exLocs ≠ []) ∧
    (page_search_query "foo" exLocs exGetDoc exEnv =
        some ⟨exRendered, true⟩ ∧
      exRendered.length = min 10 exLocs.length) :=
  ⟨by decide,
   first_ten_in_order "foo" exLocs exGetDoc exEnv exRendered (by decide) rfl⟩

end Oxidoc
